import Mathlib

/-!
Shallow embedding of the UniNote group-membership and post-approval logic.

Definitions are translated from:
* `src/lib/supabase.ts` (data model types),
* `src/lib/auth-utils.ts` (`checkUserRole`),
* `src/lib/groups.ts` (`GroupService`: `createGroup`, `getGroupDetails`,
  `updateMembershipStatus`, `addMembersToGroup`),
* `src/components/admin/PendingPostCard.tsx` (`handleApprove`, `handleReject`),
* `src/unnamed/part_008` (`UserNoteCard.handleEdit` and its render guard),
* `src/app/Create-note/page.tsx` (post creation payload).

The remote table store is modelled as an explicit record of lists (`DB`); each
Supabase query becomes a pure list operation on it.  Remote failures that the
code branches on are modelled by explicit fault parameters.  Timestamps are
opaque strings or naturals; backend-generated row ids are supplied as
parameters.
-/

namespace UniNote

/-- Type `UserRole` from `src/lib/supabase.ts`. -/
inductive UserRole
  | user
  | group_admin
  | universal_admin
deriving DecidableEq, Repr

/-- Type `PostType` from `src/lib/supabase.ts`. -/
inductive PostType
  | pub
  | grp
deriving DecidableEq, Repr

/-- Type `ApprovalStatus` from `src/lib/supabase.ts`. -/
inductive ApprovalStatus
  | pending
  | approved
  | rejected
deriving DecidableEq, Repr

/-- Values of `GroupMember.status` (`"pending" | "approved"`). -/
inductive MemberStatus
  | pending
  | approved
deriving DecidableEq, Repr

/-- The `membershipStatus` result values of `getGroupDetails`
(`"member" | "pending" | "none"`). -/
inductive MembershipStatus
  | member
  | pending
  | noMembership
deriving DecidableEq, Repr

/-- Record `Profile` from `src/lib/supabase.ts`; `username` is the profiles-table
column read by `addMembersToGroup` (stored lowercase by the sign-up
validation). -/
structure Profile where
  id : String
  email : String
  full_name : Option String
  username : String
  user_role : UserRole
deriving DecidableEq, Repr

/-- Record `Group` from `src/lib/supabase.ts` (presentation-only fields omitted). -/
structure Group where
  id : String
  name : String
  description : Option String
  created_by : String
  member_count : Nat
deriving DecidableEq, Repr

/-- Record `GroupMember` from `src/lib/supabase.ts`. -/
structure GroupMember where
  id : String
  group_id : String
  user_id : String
  is_admin : Bool
  status : MemberStatus
deriving DecidableEq, Repr

/-- Record `Post` from `src/lib/supabase.ts`: persisted columns plus the
viewer-computed `like_count` / `comment_count` / `user_has_liked` fields that
`getGroupDetails` fills in. -/
structure Post where
  id : String
  title : String
  content : String
  author_id : String
  post_type : PostType
  approval_status : ApprovalStatus
  group_id : Option String
  approved_by : Option String
  approved_at : Option String
  rejection_reason : Option String
  folder_id : Option String
  tags : Option (List String)
  created_at : Nat
  like_count : Nat
  comment_count : Nat
  user_has_liked : Bool
deriving DecidableEq, Repr

/-- Record `PostLike` from `src/lib/supabase.ts`. -/
structure PostLike where
  id : String
  post_id : String
  user_id : String
deriving DecidableEq, Repr

/-- Record `Comment` from `src/lib/supabase.ts`. -/
structure Comment where
  id : String
  post_id : String
  author_id : String
  content : String
deriving DecidableEq, Repr

/-- The remote table store (Supabase tables the studied code touches). -/
structure DB where
  profiles : List Profile
  groups : List Group
  group_members : List GroupMember
  posts : List Post
  post_likes : List PostLike
  comments : List Comment
deriving DecidableEq, Repr

/-- Query `.from("profiles").select(...).eq("id", uid).single()` — first row whose
`id` matches. -/
def findProfile (db : DB) (uid : String) : Option Profile :=
  db.profiles.find? (fun p => p.id == uid)

/-- Query `.from("groups").select("*").eq("id", gid).single()`. -/
def findGroup (db : DB) (gid : String) : Option Group :=
  db.groups.find? (fun g => g.id == gid)

/-- Query `.from("group_members").select("*").eq("group_id", gid).eq("user_id",
uid).maybeSingle()`. -/
def findMembership (db : DB) (gid uid : String) : Option GroupMember :=
  db.group_members.find? (fun m => m.group_id == gid && m.user_id == uid)

/-- Query `.from("group_members").select(count).eq("group_id", gid).eq("status",
"approved")` — the approved-membership count for a group. -/
def countApproved (db : DB) (gid : String) : Nat :=
  (db.group_members.filter
    (fun m => m.group_id == gid && m.status == MemberStatus.approved)).length

/-- Role hierarchy record from `checkUserRole` in `src/lib/auth-utils.ts`:
`universal_admin: 3, group_admin: 2, user: 1`. -/
def roleHierarchy : UserRole → Nat
  | UserRole.universal_admin => 3
  | UserRole.group_admin => 2
  | UserRole.user => 1

/-- Function `checkUserRole` from `src/lib/auth-utils.ts`: `false` when nobody is
signed in or no profile row exists, else compares hierarchy ranks. -/
def checkUserRole (db : DB) (currentUser : Option String)
    (requiredRole : UserRole) : Bool :=
  match currentUser with
  | none => false
  | some uid =>
    match findProfile db uid with
    | none => false
    | some profile =>
      decide (roleHierarchy profile.user_role ≥ roleHierarchy requiredRole)

/-- Executable model of the JS `String.prototype.trim` used throughout the
form handlers: drop whitespace from both ends. -/
def strTrim (s : String) : String :=
  String.mk
    (((s.data.dropWhile Char.isWhitespace).reverse.dropWhile
      Char.isWhitespace).reverse)

/-- The post payload built by `handleSubmit` in `src/app/Create-note/page.tsx`
(line 420): `approval_status: "pending"` always, trimmed title/content,
`group_id` only for group posts, cleared review fields.  The backend-assigned
row id and creation time are parameters. -/
def createPostData (postId : String) (title content authorId : String)
    (postType : PostType) (groupId folderId : Option String)
    (tags : List String) (now : Nat) : Post :=
  { id := postId
    title := strTrim title
    content := strTrim content
    author_id := authorId
    post_type := postType
    approval_status := ApprovalStatus.pending
    group_id := if postType == PostType.grp then groupId else none
    approved_by := none
    approved_at := none
    rejection_reason := none
    folder_id := folderId
    tags := if tags.isEmpty then none else some tags
    created_at := now
    like_count := 0
    comment_count := 0
    user_has_liked := false }

/-- Handler `PendingPostCard.handleApprove` (`src/components/admin/PendingPostCard.tsx`
line 40): update to `approved`, recording the acting admin and timestamp. -/
def handleApprove (adminId : Option String) (now : String) (p : Post) : Post :=
  { p with
    approval_status := ApprovalStatus.approved
    approved_by := adminId
    approved_at := some now }

/-- Handler `PendingPostCard.handleReject` (`src/components/admin/PendingPostCard.tsx`
line 67): refused client-side when the trimmed reason is empty (`none`),
otherwise update to `rejected` recording the reason, actor and timestamp. -/
def handleReject (adminId : Option String) (now : String) (reason : String)
    (p : Post) : Option Post :=
  if strTrim reason == "" then none
  else
    some { p with
      approval_status := ApprovalStatus.rejected
      approved_by := adminId
      approved_at := some now
      rejection_reason := some reason }

/-- The render guard on the Edit button in `UserNoteCard`
(`src/unnamed/part_008` line 184): the button exists only while
`post.approval_status === "pending"`. -/
def showEditButton (p : Post) : Bool :=
  p.approval_status == ApprovalStatus.pending

/-- Handler `UserNoteCard.handleEdit` (`src/unnamed/part_008` line 73): refused when a
trimmed field is empty, otherwise update title/content, reset
`approval_status` to `pending` and clear `rejection_reason`. -/
def handleEdit (editTitle editContent : String) (p : Post) : Option Post :=
  if strTrim editTitle == "" || strTrim editContent == "" then none
  else
    some { p with
      title := strTrim editTitle
      content := strTrim editContent
      approval_status := ApprovalStatus.pending
      rejection_reason := none }

/-- A concrete rejected post, as displayed in the profile page's Rejected
tab. -/
def rejectedNote : Post :=
  { id := "p1"
    title := "Thermodynamics summary"
    content := "First draft"
    author_id := "u1"
    post_type := PostType.pub
    approval_status := ApprovalStatus.rejected
    group_id := none
    approved_by := some "admin1"
    approved_at := some "2024-05-01T00:00:00Z"
    rejection_reason := some "too short"
    folder_id := none
    tags := none
    created_at := 10
    like_count := 0
    comment_count := 0
    user_has_liked := false }

/-- Ordering `order("created_at", descending)` — insert into a
descending-by-`created_at` list. -/
def insertByCreatedDesc (p : Post) : List Post → List Post
  | [] => [p]
  | q :: qs =>
    if p.created_at ≥ q.created_at then p :: q :: qs
    else q :: insertByCreatedDesc p qs

/-- Posts returned newest-created-first. -/
def sortByCreatedDesc : List Post → List Post
  | [] => []
  | p :: ps => insertByCreatedDesc p (sortByCreatedDesc ps)

/-- Query `.from("post_likes").select(count).eq("post_id", pid)`. -/
def likeCount (db : DB) (pid : String) : Nat :=
  (db.post_likes.filter (fun l => l.post_id == pid)).length

/-- Query `.from("comments").select(count).eq("post_id", pid)`. -/
def commentCount (db : DB) (pid : String) : Nat :=
  (db.comments.filter (fun c => c.post_id == pid)).length

/-- Query `.from("post_likes").select("id").eq("post_id", pid).eq("user_id",
uid).maybeSingle()` followed by `!!userLikeResult?.data`. -/
def userHasLiked (db : DB) (uid pid : String) : Bool :=
  (db.post_likes.find? (fun l => l.post_id == pid && l.user_id == uid)).isSome

/-- The `try` branch of the per-post stat fetch in `getGroupDetails`
(`src/lib/groups.ts` line 322). -/
def withStats (db : DB) (uid : String) (p : Post) : Post :=
  { p with
    like_count := likeCount db p.id
    comment_count := commentCount db p.id
    user_has_liked := userHasLiked db uid p.id }

/-- The `catch` branch of the per-post stat fetch (`src/lib/groups.ts` line
352): stats degrade to zero/false. -/
def degradedStats (p : Post) : Post :=
  { p with like_count := 0, comment_count := 0, user_has_liked := false }

/-- The `posts.map` over per-post stat fetches in `getGroupDetails`
(`src/lib/groups.ts` lines 320–362); `statFail` says which posts' stat
queries reject, sending that post through the `catch` branch. -/
def annotateStats (db : DB) (uid : String) (statFail : String → Bool)
    (posts : List Post) : List Post :=
  posts.map (fun p => if statFail p.id then degradedStats p else withStats db uid p)

/-- The `isUniversalAdmin` local of `getGroupDetails` (`src/lib/groups.ts`
line 218): false when logged out, else `profile?.user_role ===
"universal_admin"`. -/
def isUniversalAdminFlag (db : DB) (userId : Option String) : Bool :=
  match userId with
  | none => false
  | some uid =>
    match findProfile db uid with
    | some profile => profile.user_role == UserRole.universal_admin
    | none => false

/-- The `isMember` local (`src/lib/groups.ts` line 244): membership row
approved, or universal admin. -/
def derivedIsMember (db : DB) (gid uid : String) : Bool :=
  (match findMembership db gid uid with
    | some m => m.status == MemberStatus.approved
    | none => false)
  || isUniversalAdminFlag db (some uid)

/-- The `membershipStatus` local (`src/lib/groups.ts` line 245): derived from
the membership row when one exists, else from the universal-admin flag. -/
def derivedMembershipStatus (db : DB) (gid uid : String) : MembershipStatus :=
  match findMembership db gid uid with
  | some m =>
    if m.status == MemberStatus.approved then MembershipStatus.member
    else MembershipStatus.pending
  | none =>
    if isUniversalAdminFlag db (some uid) then MembershipStatus.member
    else MembershipStatus.noMembership

/-- The `isAdmin` local (`src/lib/groups.ts` line 252):
`memberData?.is_admin || false || isUniversalAdmin`. -/
def derivedIsAdmin (db : DB) (gid uid : String) : Bool :=
  (match findMembership db gid uid with
    | some m => m.is_admin
    | none => false)
  || isUniversalAdminFlag db (some uid)

/-- The post query filters of `getGroupDetails` (`src/lib/groups.ts` lines
265–276): group match, then `eq("approval_status", "approved")` for
non-admins and `in("approval_status", ["pending", "approved"])` for
admins. -/
def postVisible (gid : String) (isAdmin : Bool) (p : Post) : Bool :=
  p.group_id == some gid
    && (if !isAdmin then p.approval_status == ApprovalStatus.approved
        else p.approval_status == ApprovalStatus.pending
          || p.approval_status == ApprovalStatus.approved)

/-- The post fetch of `getGroupDetails` (`src/lib/groups.ts` lines 254–362):
filter, order newest-first, annotate with per-post stats. -/
def fetchGroupPosts (db : DB) (gid uid : String) (isAdmin : Bool)
    (statFail : String → Bool) : List Post :=
  annotateStats db uid statFail
    (sortByCreatedDesc (db.posts.filter (postVisible gid isAdmin)))

/-- The result record of `getGroupDetails`. -/
structure GroupDetails where
  group : Group
  isMember : Bool
  isAdmin : Bool
  membershipStatus : MembershipStatus
  posts : List Post
deriving DecidableEq, Repr

/-- Function `GroupService.getGroupDetails` (`src/lib/groups.ts` lines 186–373).
`none` when the group row fetch fails; the returned group carries the live
approved-membership count.  For an anonymous caller the universal-admin and
membership branches are skipped and no posts are fetched. -/
def getGroupDetails (db : DB) (groupId : String) (userId : Option String)
    (statFail : String → Bool) : Option GroupDetails :=
  match findGroup db groupId with
  | none => none
  | some group =>
    let groupWithCount := { group with member_count := countApproved db groupId }
    match userId with
    | none =>
      some ⟨groupWithCount, false, false, MembershipStatus.noMembership, []⟩
    | some uid =>
      let im := derivedIsMember db groupId uid
      let ia := derivedIsAdmin db groupId uid
      some ⟨groupWithCount, im, ia, derivedMembershipStatus db groupId uid,
        if im then fetchGroupPosts db groupId uid ia statFail else []⟩

/-- Concrete fixture: the group used by the witness stores. -/
def gPhysics : Group := Group.mk "g1" "Physics" none "u1" 1

/-- Concrete fixture: a universal-admin profile. -/
def uaProfile : Profile :=
  Profile.mk "ua" "ua@x.y" none "uadmin" UserRole.universal_admin

/-- Concrete fixture: an approved post of group g1. -/
def postG1 : Post :=
  Post.mk "p1" "T" "C" "u1" PostType.grp ApprovalStatus.approved (some "g1")
    none none none none none 3 0 0 false

/-- A store with a universal admin who has a *pending* membership row in
group g1 (e.g. after the admin called `joinGroup` before being given the
universal role). -/
def uaPendingDB : DB :=
  DB.mk [uaProfile] [gPhysics]
    [GroupMember.mk "m1" "g1" "ua" false MemberStatus.pending]
    [] [] []

/-- A store where the universal admin has no membership row in g1. -/
def uaNoRowDB : DB := DB.mk [uaProfile] [gPhysics] [] [] [] []

/-- A store where u2 is an approved non-admin member of g1, which holds one
approved post. -/
def memberDB : DB :=
  DB.mk [] [gPhysics]
    [GroupMember.mk "m1" "g1" "u2" false MemberStatus.approved]
    [postG1] [] []

/-- Concrete fixture: the `getGroupDetails` result for u2 on `memberDB`. -/
def memberDetails : GroupDetails :=
  ⟨gPhysics, true, false, MembershipStatus.member, [postG1]⟩

/-- Concrete fixture: a public approved post with id pA. -/
def postA : Post :=
  Post.mk "pA" "A" "a" "u1" PostType.pub ApprovalStatus.approved none none
    none none none none 1 0 0 false

/-- Concrete fixture: a public approved post with id pB. -/
def postB : Post :=
  Post.mk "pB" "B" "b" "u1" PostType.pub ApprovalStatus.approved none none
    none none none none 2 0 0 false

/-- Concrete fixture: a store where user u2 has liked post pB. -/
def statDB : DB := DB.mk [] [] [] [postA, postB] [PostLike.mk "l1" "pB" "u2"] []

/-- Concrete fixture: a group_admin profile. -/
def gaProfile : Profile :=
  Profile.mk "u1" "a@b.c" none "alice" UserRole.group_admin

/-- Concrete fixture: a store holding only `gaProfile`. -/
def gaDB : DB := DB.mk [gaProfile] [] [] [] [] []

/-- Per-step failure injection for `createGroup`: which of its remote calls
reject.  Step 3 (building the membership payload) is pure and cannot fail. -/
structure CreateFaults where
  groupInsertErr : Option String
  adminLookupErr : Option String
  memberInsertErr : Option String
  countUpdateErr : Option String
deriving DecidableEq, Repr

/-- All remote calls succeed. -/
def noFaults : CreateFaults := CreateFaults.mk none none none none

/-- Query `.from("profiles").select("id").eq("user_role",
"universal_admin").limit(1).maybeSingle()` (`src/lib/groups.ts` line 101). -/
def findUniversalAdmin (db : DB) : Option Profile :=
  db.profiles.find? (fun p => p.user_role == UserRole.universal_admin)

/-- Step 3 of `createGroup` (`src/lib/groups.ts` lines 112–131): creator as
admin+approved, plus the universal admin with the same flags when one exists
and differs from the creator. -/
def createGroupMemberships (gid creatorId : String) (ua : Option Profile)
    (memRowId : String → String) : List GroupMember :=
  let base := [GroupMember.mk (memRowId creatorId) gid creatorId true
    MemberStatus.approved]
  match ua with
  | some uaP =>
    if uaP.id ≠ creatorId then
      base ++ [GroupMember.mk (memRowId uaP.id) gid uaP.id true
        MemberStatus.approved]
    else base
  | none => base

/-- Function `GroupService.createGroup` (`src/lib/groups.ts` lines 81–151).  Returns
the store after the calls that completed together with the thrown error or
the group row returned by step 1 (`member_count` provisionally 1).  A
failing admin lookup (step 2) leaves `universalAdminProfile` null and is only
logged; a failing count update (step 5) is only logged; steps 1 and 4 throw. -/
def createGroup (db : DB) (f : CreateFaults) (name : String)
    (description : Option String) (creatorId : String) (newGroupId : String)
    (memRowId : String → String) : DB × Except String Group :=
  match f.groupInsertErr with
  | some e => (db, Except.error e)
  | none =>
    let g : Group := Group.mk newGroupId name description creatorId 1
    let db1 : DB := { db with groups := db.groups ++ [g] }
    let ua : Option Profile :=
      match f.adminLookupErr with
      | some _ => none
      | none => findUniversalAdmin db
    let memberships := createGroupMemberships newGroupId creatorId ua memRowId
    match f.memberInsertErr with
    | some e => (db1, Except.error e)
    | none =>
      let db2 : DB :=
        { db1 with group_members := db1.group_members ++ memberships }
      match f.countUpdateErr with
      | some _ => (db2, Except.ok g)
      | none =>
        let db3 : DB :=
          { db2 with groups := db2.groups.map (fun x =>
              if x.id == newGroupId then
                { x with member_count := memberships.length }
              else x) }
        (db3, Except.ok g)

/-- The member_count recomputation-from-source pattern shared by the
membership-mutating operations (`src/lib/groups.ts` lines 429–441, 545–557):
persist onto the group row the count of approved memberships read from the
current rows. -/
def recountGroup (db : DB) (gid : String) : DB :=
  { db with groups := db.groups.map (fun g =>
      if g.id == gid then { g with member_count := countApproved db gid }
      else g) }

/-- The `status` argument of `updateMembershipStatus`
(`"approved" | "rejected"`). -/
inductive UpdateStatus
  | approved
  | rejected
deriving DecidableEq, Repr

/-- Function `GroupService.updateMembershipStatus` (`src/lib/groups.ts` lines
402–442): fetch the membership's `group_id` (throwing when absent), then
either hard-delete the row (`"rejected"`) or set its status to approved
(`"approved"`), then recompute the owning group's `member_count` as the
count of approved memberships read from the updated rows and persist it. -/
def updateMembershipStatus (db : DB) (membershipId : String)
    (status : UpdateStatus) : Except String DB :=
  match db.group_members.find? (fun m => m.id == membershipId) with
  | none => Except.error "membership not found"
  | some membership =>
    match status with
    | UpdateStatus.rejected =>
      Except.ok (recountGroup
        { db with group_members :=
            db.group_members.filter (fun m => !(m.id == membershipId)) }
        membership.group_id)
    | UpdateStatus.approved =>
      Except.ok (recountGroup
        { db with group_members :=
            db.group_members.map (fun m =>
              if m.id == membershipId then
                { m with status := MemberStatus.approved }
              else m) }
        membership.group_id)

/-- Executable model of the JS `String.prototype.toLowerCase` used by
`addMembersToGroup`. -/
def strToLower (s : String) : String := String.mk (s.data.map Char.toLower)

/-- The three outcome lists of `addMembersToGroup`. -/
structure AddMembersResult where
  added : List String
  notFound : List String
  alreadyMembers : List String
deriving DecidableEq, Repr

/-- The profile lookup of `addMembersToGroup` (`src/lib/groups.ts` line 482):
`.from("profiles").select("id, username").in("username",
usernames.map(u => u.toLowerCase()))`. -/
def matchedProfiles (db : DB) (usernames : List String) : List Profile :=
  db.profiles.filter (fun p => (usernames.map strToLower).contains p.username)

/-- The `existingUserIds` local of `addMembersToGroup` (`src/lib/groups.ts`
line 504): user ids of *any* membership row (pending or approved) of the
group held by a matched profile. -/
def existingMemberIds (db : DB) (groupId : String) (usernames : List String) :
    List String :=
  (db.group_members.filter (fun gm =>
    gm.group_id == groupId
      && ((matchedProfiles db usernames).map (fun p => p.id)).contains
          gm.user_id)).map (fun gm => gm.user_id)

/-- The `newUserIds` local of `addMembersToGroup` (`src/lib/groups.ts` line
517): matched ids without an existing membership row. -/
def newMemberIds (db : DB) (groupId : String) (usernames : List String) :
    List String :=
  ((matchedProfiles db usernames).map (fun p => p.id)).filter
    (fun i => !((existingMemberIds db groupId usernames).contains i))

/-- Function `GroupService.addMembersToGroup` (`src/lib/groups.ts` lines 467–562):
look up profiles by lowercased usernames, report unmatched inputs as
`notFound`, report matched profiles holding *any* membership row in the group
as `alreadyMembers` (stored spelling), insert the rest with
`{is_admin: false, status: "approved"}` reporting them as `added`, and
recompute the group's `member_count` when anything was inserted. -/
def addMembersToGroup (db : DB) (groupId : String) (usernames : List String)
    (memRowId : String → String) : DB × AddMembersResult :=
  let profiles := matchedProfiles db usernames
  let foundUsernames := profiles.map (fun p => p.username)
  let userIds := profiles.map (fun p => p.id)
  let notFound :=
    usernames.filter (fun u => !(foundUsernames.contains (strToLower u)))
  if userIds.isEmpty then
    (db, AddMembersResult.mk [] notFound [])
  else
    let existingUserIds := existingMemberIds db groupId usernames
    let newUserIds := newMemberIds db groupId usernames
    let alreadyMembers :=
      (profiles.filter (fun p => existingUserIds.contains p.id)).map
        (fun p => p.username)
    if newUserIds.isEmpty then
      (db, AddMembersResult.mk [] notFound alreadyMembers)
    else
      let newRows := newUserIds.map (fun uid =>
        GroupMember.mk (memRowId uid) groupId uid false MemberStatus.approved)
      let added :=
        (profiles.filter (fun p => newUserIds.contains p.id)).map
          (fun p => p.username)
      let db2 : DB := { db with group_members := db.group_members ++ newRows }
      (recountGroup db2 groupId,
        AddMembersResult.mk added notFound alreadyMembers)

/-- Concrete fixture: alice and bob have profiles; bob already belongs to
g1. -/
def addDB : DB :=
  DB.mk
    [Profile.mk "pa" "alice@x.y" none "alice" UserRole.user,
     Profile.mk "pb" "bob@x.y" none "bob" UserRole.user]
    [gPhysics]
    [GroupMember.mk "m1" "g1" "pb" false MemberStatus.approved]
    [] [] []

/-- C1: evaluation at the failing input.  For a rejected post the Edit button
is not rendered (`showEditButton` is false), so the claimed
`rejected → pending` author-edit transition is unreachable, even though the
edit handler itself — were it invocable — would reset the status to `pending`
and clear `rejection_reason` exactly as the claim describes; post creation
does start at `pending`. -/
theorem rejected_edit_unreachable :
    showEditButton rejectedNote = false
    ∧ (handleEdit "Better title" "Expanded content" rejectedNote).map
        (fun q => (q.approval_status, q.rejection_reason))
      = some (ApprovalStatus.pending, none)
    ∧ Post.approval_status
        (createPostData "p2" "t" "c" "u1" PostType.pub none none [] 5)
      = ApprovalStatus.pending := by
  refine ⟨rfl, ?_, rfl⟩
  decide

theorem mem_insertByCreatedDesc {x p : Post} {l : List Post} :
    x ∈ insertByCreatedDesc p l ↔ x = p ∨ x ∈ l := by
  induction l with
  | nil => simp [insertByCreatedDesc]
  | cons q qs ih =>
    unfold insertByCreatedDesc
    split
    · simp
    · simp only [List.mem_cons, ih]
      tauto

theorem mem_sortByCreatedDesc {x : Post} {l : List Post} :
    x ∈ sortByCreatedDesc l ↔ x ∈ l := by
  induction l with
  | nil => simp [sortByCreatedDesc]
  | cons p ps ih =>
    unfold sortByCreatedDesc
    rw [mem_insertByCreatedDesc]
    simp [ih]

/-- Both stat branches keep the post's identity and approval status. -/
theorem mem_annotateStats {q : Post} {db : DB} {uid : String}
    {statFail : String → Bool} {l : List Post} :
    q ∈ annotateStats db uid statFail l →
      ∃ p ∈ l, q.id = p.id ∧ q.approval_status = p.approval_status := by
  intro hq
  rcases List.mem_map.mp hq with ⟨p, hp, hfp⟩
  refine ⟨p, hp, ?_⟩
  by_cases hf : statFail p.id
  · simp [hf] at hfp
    subst hfp
    exact ⟨rfl, rfl⟩
  · simp [hf] at hfp
    subst hfp
    exact ⟨rfl, rfl⟩

theorem annotateStats_complete {p : Post} {db : DB} {uid : String}
    {statFail : String → Bool} {l : List Post} (hp : p ∈ l) :
    ∃ q ∈ annotateStats db uid statFail l,
      q.id = p.id ∧ q.approval_status = p.approval_status := by
  refine ⟨if statFail p.id then degradedStats p else withStats db uid p,
    List.mem_map.mpr ⟨p, hp, rfl⟩, ?_⟩
  by_cases hf : statFail p.id
  · simp [hf, degradedStats]
  · simp [hf, withStats]

/-- Inversion of a successful `getGroupDetails` call into the derived
flags. -/
theorem getGroupDetails_inv {db : DB} {gid : String} {userId : Option String}
    {statFail : String → Bool} {d : GroupDetails}
    (h : getGroupDetails db gid userId statFail = some d) :
    ∃ g, findGroup db gid = some g
      ∧ d.group = { g with member_count := countApproved db gid }
      ∧ (userId = none →
          d.isMember = false ∧ d.isAdmin = false
          ∧ d.membershipStatus = MembershipStatus.noMembership
          ∧ d.posts = [])
      ∧ (∀ uid, userId = some uid →
          d.isMember = derivedIsMember db gid uid
          ∧ d.isAdmin = derivedIsAdmin db gid uid
          ∧ d.membershipStatus = derivedMembershipStatus db gid uid
          ∧ d.posts =
              (if derivedIsMember db gid uid then
                fetchGroupPosts db gid uid (derivedIsAdmin db gid uid) statFail
              else [])) := by
  unfold getGroupDetails at h
  cases hg : findGroup db gid with
  | none => rw [hg] at h; exact absurd h (by simp)
  | some g =>
    rw [hg] at h
    refine ⟨g, rfl, ?_⟩
    cases userId with
    | none =>
      simp only [Option.some.injEq] at h
      subst h
      simp
    | some uid =>
      simp only [Option.some.injEq] at h
      subst h
      simp

/-- Any post passing the visibility filter is for the requested group and is
pending or approved; for non-admin queries it is approved. -/
theorem postVisible_status {gid : String} {ia : Bool} {p : Post}
    (h : postVisible gid ia p = true) :
    p.group_id = some gid
    ∧ (p.approval_status = ApprovalStatus.pending
        ∨ p.approval_status = ApprovalStatus.approved)
    ∧ (ia = false → p.approval_status = ApprovalStatus.approved) := by
  cases ia with
  | false =>
    simp [postVisible] at h
    exact ⟨h.1, Or.inr h.2, fun _ => h.2⟩
  | true =>
    simp [postVisible] at h
    exact ⟨h.1, h.2, fun hh => absurd hh (by decide)⟩

/-- Every post produced by the post-fetch path of `getGroupDetails` comes from
a stored post of that group passing the visibility filter. -/
theorem mem_fetchGroupPosts {q : Post} {db : DB} {gid uid : String} {ia : Bool}
    {statFail : String → Bool}
    (hq : q ∈ fetchGroupPosts db gid uid ia statFail) :
    ∃ p ∈ db.posts, q.id = p.id ∧ q.approval_status = p.approval_status
      ∧ postVisible gid ia p = true := by
  rcases mem_annotateStats hq with ⟨p, hps, hid, hst⟩
  rcases List.mem_filter.mp (mem_sortByCreatedDesc.mp hps) with ⟨hmem, hvis⟩
  exact ⟨p, hmem, hid, hst, hvis⟩

/-- Every stored post passing the visibility filter appears (with its stats
annotated) in the post-fetch result. -/
theorem fetchGroupPosts_complete {db : DB} {gid uid : String} {ia : Bool}
    {statFail : String → Bool} {p : Post} (hmem : p ∈ db.posts)
    (hvis : postVisible gid ia p = true) :
    ∃ q ∈ fetchGroupPosts db gid uid ia statFail,
      q.id = p.id ∧ q.approval_status = p.approval_status := by
  have hps : p ∈ sortByCreatedDesc (db.posts.filter (postVisible gid ia)) :=
    mem_sortByCreatedDesc.mpr (List.mem_filter.mpr ⟨hmem, hvis⟩)
  exact annotateStats_complete hps

/-- C10: an anonymous caller (no `userId`) gets `isMember = false`,
`isAdmin = false`, `membershipStatus = none`, `posts = []` whenever the group
fetch succeeds; the result depends only on the groups and group_members
tables, so no profile (universal-admin) lookup, caller-membership derivation
or post fetch affects it. -/
theorem getGroupDetails_anonymous (db : DB) (gid : String) (g : Group)
    (statFail : String → Bool) (h : findGroup db gid = some g) :
    getGroupDetails db gid none statFail
      = some ⟨{ g with member_count := countApproved db gid },
          false, false, MembershipStatus.noMembership, []⟩
    ∧ ∀ db' : DB, db'.groups = db.groups →
        db'.group_members = db.group_members →
        getGroupDetails db' gid none statFail
          = getGroupDetails db gid none statFail := by
  constructor
  · unfold getGroupDetails
    rw [h]
  · intro db' hgroups hmembers
    unfold getGroupDetails findGroup countApproved
    rw [hgroups, hmembers]

/-- Witness for `getGroupDetails_anonymous` on a one-group store. -/
theorem getGroupDetails_anonymous_witness :
    findGroup (DB.mk [] [gPhysics] [] [] [] []) "g1" = some gPhysics
    ∧ (getGroupDetails (DB.mk [] [gPhysics] [] [] [] []) "g1" none
          (fun _ => false)
        = some ⟨{ gPhysics with
              member_count :=
                countApproved (DB.mk [] [gPhysics] [] [] [] []) "g1" },
            false, false, MembershipStatus.noMembership, []⟩
      ∧ ∀ db' : DB,
          db'.groups = DB.groups (DB.mk [] [gPhysics] [] [] [] []) →
          db'.group_members
            = DB.group_members (DB.mk [] [gPhysics] [] [] [] []) →
          getGroupDetails db' "g1" none (fun _ => false)
            = getGroupDetails (DB.mk [] [gPhysics] [] [] [] []) "g1" none
                (fun _ => false)) :=
  ⟨by decide,
    getGroupDetails_anonymous (DB.mk [] [gPhysics] [] [] [] []) "g1" gPhysics
      (fun _ => false) (by decide)⟩

/-- C4: in any successful `getGroupDetails`, posts are fetched only when the
derived `isMember` flag holds (otherwise the list is empty); every returned
post is non-rejected, approved-only for non-admin callers, and
pending-or-approved for admins; and for a member every stored post of the
group with an allowed status does appear. -/
theorem getGroupDetails_posts_spec (db : DB) (gid : String)
    (userId : Option String) (statFail : String → Bool) (d : GroupDetails)
    (h : getGroupDetails db gid userId statFail = some d) :
    (d.isMember = false → d.posts = [])
    ∧ (∀ q ∈ d.posts,
        q.approval_status ≠ ApprovalStatus.rejected
        ∧ (d.isAdmin = false → q.approval_status = ApprovalStatus.approved)
        ∧ (q.approval_status = ApprovalStatus.pending
            ∨ q.approval_status = ApprovalStatus.approved))
    ∧ (d.isMember = true → ∀ p ∈ db.posts, p.group_id = some gid →
        (p.approval_status = ApprovalStatus.approved
          ∨ (d.isAdmin = true ∧ p.approval_status = ApprovalStatus.pending)) →
        ∃ q ∈ d.posts, q.id = p.id ∧ q.approval_status = p.approval_status) := by
  rcases getGroupDetails_inv h with ⟨g, _, _, hanon, hsome⟩
  cases userId with
  | none =>
    rcases hanon rfl with ⟨hm, _, _, hpost⟩
    refine ⟨fun _ => hpost, ?_, ?_⟩
    · intro q hq
      rw [hpost] at hq
      exact absurd hq (List.not_mem_nil q)
    · intro hmem
      rw [hm] at hmem
      exact absurd hmem (by simp)
  | some uid =>
    rcases hsome uid rfl with ⟨hm, ha, _, hposts⟩
    by_cases him : derivedIsMember db gid uid = true
    · have hposts' : d.posts
          = fetchGroupPosts db gid uid (derivedIsAdmin db gid uid) statFail := by
        rw [hposts, if_pos him]
      refine ⟨?_, ?_, ?_⟩
      · intro hmf
        rw [hm] at hmf
        rw [hmf] at him
        exact absurd him (by simp)
      · intro q hq
        rw [hposts'] at hq
        rcases mem_fetchGroupPosts hq with ⟨p, _, _, hst, hvis⟩
        rcases postVisible_status hvis with ⟨_, hpa, hna⟩
        refine ⟨?_, ?_, ?_⟩
        · rw [hst]
          rcases hpa with h1 | h1 <;> simp [h1]
        · intro hia
          rw [hst]
          exact hna (by rw [← ha, hia])
        · rw [hst]
          exact hpa
      · intro _ p hmem hgidp hallowed
        have hvis : postVisible gid (derivedIsAdmin db gid uid) p = true := by
          unfold postVisible
          rw [Bool.and_eq_true]
          refine ⟨by simp [hgidp], ?_⟩
          cases hia : derivedIsAdmin db gid uid with
          | false =>
            rcases hallowed with h1 | ⟨h2, _⟩
            · simp [h1]
            · rw [← ha] at hia
              rw [h2] at hia
              exact absurd hia (by simp)
          | true =>
            rcases hallowed with h1 | ⟨_, h2⟩
            · simp [h1]
            · simp [h2]
        rcases fetchGroupPosts_complete hmem hvis with ⟨q, hq, hqid, hqst⟩
        rw [hposts']
        exact ⟨q, hq, hqid, hqst⟩
    · have him' : derivedIsMember db gid uid = false := by
        simpa using him
      have hposts' : d.posts = [] := by
        rw [hposts, him']
        simp
      refine ⟨fun _ => hposts', ?_, ?_⟩
      · intro q hq
        rw [hposts'] at hq
        exact absurd hq (List.not_mem_nil q)
      · intro hmem
        rw [hm, him'] at hmem
        exact absurd hmem (by simp)

/-- Witness for `getGroupDetails_posts_spec`: an approved non-admin member of
a one-group store with one approved post. -/
theorem getGroupDetails_posts_spec_witness :
    getGroupDetails memberDB "g1" (some "u2") (fun _ => false)
      = some memberDetails
    ∧ ((memberDetails.isMember = false → memberDetails.posts = [])
      ∧ (∀ q ∈ memberDetails.posts,
          q.approval_status ≠ ApprovalStatus.rejected
          ∧ (memberDetails.isAdmin = false →
              q.approval_status = ApprovalStatus.approved)
          ∧ (q.approval_status = ApprovalStatus.pending
              ∨ q.approval_status = ApprovalStatus.approved))
      ∧ (memberDetails.isMember = true → ∀ p ∈ memberDB.posts,
          p.group_id = some "g1" →
          (p.approval_status = ApprovalStatus.approved
            ∨ (memberDetails.isAdmin = true
                ∧ p.approval_status = ApprovalStatus.pending)) →
          ∃ q ∈ memberDetails.posts,
            q.id = p.id ∧ q.approval_status = p.approval_status)) :=
  ⟨by decide,
    getGroupDetails_posts_spec memberDB "g1" (some "u2") (fun _ => false)
      memberDetails (by decide)⟩

/-- C3 counterexample: a universal-admin caller who holds a pending
membership row gets `membershipStatus = "pending"`, not `"member"` — the
membership row's branch of the `membershipStatus` derivation wins over the
universal-admin override, so the claim's "membershipStatus = member for every
universal-admin caller" is false at this input. -/
theorem ua_pending_membershipStatus :
    (getGroupDetails uaPendingDB "g1" (some "ua") (fun _ => false)).map
        GroupDetails.membershipStatus
      = some MembershipStatus.pending
    ∧ MembershipStatus.pending ≠ MembershipStatus.member := by
  constructor
  · decide
  · decide

/-- C3 (amended): a universal-admin caller always gets `isMember = true` and
`isAdmin = true`, gets `membershipStatus = "member"` whenever no membership
row exists for them in the group (a pending row instead yields `"pending"`),
and the returned posts are filtered to pending/approved — never rejected. -/
theorem ua_getGroupDetails (db : DB) (gid uid : String)
    (statFail : String → Bool) (g : Group) (p : Profile)
    (hg : findGroup db gid = some g) (hp : findProfile db uid = some p)
    (hr : p.user_role = UserRole.universal_admin) :
    ∃ d, getGroupDetails db gid (some uid) statFail = some d
      ∧ d.isMember = true
      ∧ d.isAdmin = true
      ∧ (findMembership db gid uid = none →
          d.membershipStatus = MembershipStatus.member)
      ∧ ∀ q ∈ d.posts,
          q.approval_status = ApprovalStatus.pending
          ∨ q.approval_status = ApprovalStatus.approved := by
  have hua : isUniversalAdminFlag db (some uid) = true := by
    simp [isUniversalAdminFlag, hp, hr]
  have him : derivedIsMember db gid uid = true := by
    unfold derivedIsMember
    rw [hua, Bool.or_true]
  have hia : derivedIsAdmin db gid uid = true := by
    unfold derivedIsAdmin
    rw [hua, Bool.or_true]
  refine ⟨⟨{ g with member_count := countApproved db gid },
      derivedIsMember db gid uid, derivedIsAdmin db gid uid,
      derivedMembershipStatus db gid uid,
      if derivedIsMember db gid uid then
        fetchGroupPosts db gid uid (derivedIsAdmin db gid uid) statFail
      else []⟩, ?_, him, hia, ?_, ?_⟩
  · unfold getGroupDetails
    rw [hg]
  · intro hnone
    unfold derivedMembershipStatus
    rw [hnone, hua]
    simp
  · intro q hq
    rw [if_pos him] at hq
    rcases mem_fetchGroupPosts hq with ⟨p', _, _, hst, hvis⟩
    rw [hst]
    exact (postVisible_status hvis).2.1

/-- Witness for `ua_getGroupDetails`: universal admin with no membership row
in a one-group store. -/
theorem ua_getGroupDetails_witness :
    findGroup uaNoRowDB "g1" = some gPhysics
    ∧ findProfile uaNoRowDB "ua" = some uaProfile
    ∧ uaProfile.user_role = UserRole.universal_admin
    ∧ ∃ d, getGroupDetails uaNoRowDB "g1" (some "ua") (fun _ => false) = some d
        ∧ d.isMember = true
        ∧ d.isAdmin = true
        ∧ (findMembership uaNoRowDB "g1" "ua" = none →
            d.membershipStatus = MembershipStatus.member)
        ∧ ∀ q ∈ d.posts,
            q.approval_status = ApprovalStatus.pending
            ∨ q.approval_status = ApprovalStatus.approved :=
  ⟨by decide, by decide, rfl,
    ua_getGroupDetails uaNoRowDB "g1" "ua" (fun _ => false) gPhysics uaProfile
      (by decide) (by decide) rfl⟩

/-- C9: the per-post stat aggregation is failure-isolated: the output batch
has the same length as the input, the post at each index is preserved (same
id), a post whose stat fetch fails degrades to `like_count = 0`,
`comment_count = 0`, `user_has_liked = false`, and every other post carries
the counts computed from the store. -/
theorem annotateStats_isolation (db : DB) (uid : String)
    (statFail : String → Bool) (posts : List Post) (i : Nat) (p : Post)
    (hp : posts[i]? = some p) :
    (annotateStats db uid statFail posts).length = posts.length
    ∧ ∃ q, (annotateStats db uid statFail posts)[i]? = some q
        ∧ q.id = p.id
        ∧ (statFail p.id = true →
            q.like_count = 0 ∧ q.comment_count = 0 ∧ q.user_has_liked = false)
        ∧ (statFail p.id = false →
            q.like_count = likeCount db p.id
            ∧ q.comment_count = commentCount db p.id
            ∧ q.user_has_liked = userHasLiked db uid p.id) := by
  refine ⟨List.length_map _ _, ?_⟩
  refine ⟨if statFail p.id then degradedStats p else withStats db uid p, ?_, ?_, ?_, ?_⟩
  · unfold annotateStats
    rw [List.getElem?_map, hp]
    rfl
  · by_cases hf : statFail p.id <;> simp [hf, degradedStats, withStats]
  · intro hf
    simp [hf, degradedStats]
  · intro hf
    simp [hf, withStats]

/-- Witness for `annotateStats_isolation`: two posts; post pA's stat fetch
fails and degrades while post pB keeps its computed stats. -/
theorem annotateStats_isolation_witness :
    [postA, postB][0]? = some postA
    ∧ ((annotateStats statDB "u2" (fun pid => pid == "pA")
          [postA, postB]).length = [postA, postB].length
      ∧ ∃ q, (annotateStats statDB "u2" (fun pid => pid == "pA")
            [postA, postB])[0]? = some q
          ∧ q.id = postA.id
          ∧ ((fun pid => pid == "pA") postA.id = true →
              q.like_count = 0 ∧ q.comment_count = 0
              ∧ q.user_has_liked = false)
          ∧ ((fun pid => pid == "pA") postA.id = false →
              q.like_count = likeCount statDB postA.id
              ∧ q.comment_count = commentCount statDB postA.id
              ∧ q.user_has_liked = userHasLiked statDB "u2" postA.id)) :=
  ⟨by decide,
    annotateStats_isolation statDB "u2" (fun pid => pid == "pA")
      [postA, postB] 0 postA (by decide)⟩

/-- C2: for every profile, `checkUserRole` holds iff the profile's rank is at
least the required role's rank under user(1) < group_admin(2) <
universal_admin(3); in particular a group_admin profile passes the checks for
`user` and `group_admin` but not `universal_admin`. -/
theorem checkUserRole_rank (db : DB) (uid : String) (p : Profile)
    (r : UserRole) (h : findProfile db uid = some p) :
    (checkUserRole db (some uid) r = true ↔
      roleHierarchy p.user_role ≥ roleHierarchy r)
    ∧ (p.user_role = UserRole.group_admin →
        checkUserRole db (some uid) UserRole.user = true
        ∧ checkUserRole db (some uid) UserRole.group_admin = true
        ∧ checkUserRole db (some uid) UserRole.universal_admin = false) := by
  constructor
  · simp [checkUserRole, h]
  · intro hga
    simp [checkUserRole, h, hga, roleHierarchy]

/-- Witness for `checkUserRole_rank` at a concrete one-profile store. -/
theorem checkUserRole_rank_witness :
    findProfile gaDB "u1" = some gaProfile
    ∧ ((checkUserRole gaDB (some "u1") UserRole.user = true ↔
          roleHierarchy gaProfile.user_role ≥ roleHierarchy UserRole.user)
      ∧ (gaProfile.user_role = UserRole.group_admin →
          checkUserRole gaDB (some "u1") UserRole.user = true
          ∧ checkUserRole gaDB (some "u1") UserRole.group_admin = true
          ∧ checkUserRole gaDB (some "u1") UserRole.universal_admin = false)) :=
  ⟨by decide, checkUserRole_rank gaDB "u1" gaProfile UserRole.user (by decide)⟩

/-- Lookup by id over an updated append: when no stored group collides with
the fresh id, the lookup returns the new row with its updated count. -/
theorem find?_update_append (l : List Group) (g : Group) (n : Nat)
    (hfresh : ∀ x ∈ l, x.id ≠ g.id) :
    ((l ++ [g]).map (fun x =>
        if x.id == g.id then { x with member_count := n } else x)).find?
      (fun x => x.id == g.id)
    = some { g with member_count := n } := by
  induction l with
  | nil => simp
  | cons x xs ih =>
    have hx : x.id ≠ g.id := hfresh x (by simp)
    have hbeq : (x.id == g.id) = false := by simp [hx]
    simp only [List.cons_append, List.map_cons]
    rw [List.find?_cons_of_neg]
    · exact ih (fun y hy => hfresh y (List.mem_cons_of_mem _ hy))
    · simp [hbeq]

/-- C5: with all remote calls succeeding, `createGroup` inserts exactly the
membership rows built in step 3 — the creator, plus a distinct universal
admin when one exists, all `{is_admin: true, status: approved}` — and
persists the group's `member_count` as the number of memberships inserted
(1 with no universal admin, 2 with a distinct one); the returned group row is
the step-1 row with its provisional count 1. -/
theorem createGroup_rows_and_count (db : DB) (name : String)
    (description : Option String) (creatorId newGroupId : String)
    (memRowId : String → String)
    (hfresh : ∀ g ∈ db.groups, g.id ≠ newGroupId) :
    (createGroup db noFaults name description creatorId newGroupId memRowId).2
      = Except.ok (Group.mk newGroupId name description creatorId 1)
    ∧ (createGroup db noFaults name description creatorId newGroupId
        memRowId).1.group_members
      = db.group_members
        ++ createGroupMemberships newGroupId creatorId (findUniversalAdmin db)
            memRowId
    ∧ (∀ m ∈ createGroupMemberships newGroupId creatorId
          (findUniversalAdmin db) memRowId,
        m.group_id = newGroupId ∧ m.is_admin = true
        ∧ m.status = MemberStatus.approved)
    ∧ findGroup
        (createGroup db noFaults name description creatorId newGroupId
          memRowId).1 newGroupId
      = some (Group.mk newGroupId name description creatorId
          (createGroupMemberships newGroupId creatorId (findUniversalAdmin db)
            memRowId).length)
    ∧ (findUniversalAdmin db = none →
        (createGroupMemberships newGroupId creatorId (findUniversalAdmin db)
          memRowId).map GroupMember.user_id = [creatorId])
    ∧ (∀ ua, findUniversalAdmin db = some ua → ua.id ≠ creatorId →
        (createGroupMemberships newGroupId creatorId (findUniversalAdmin db)
          memRowId).map GroupMember.user_id = [creatorId, ua.id]) := by
  refine ⟨rfl, rfl, ?_, ?_, ?_, ?_⟩
  · intro m hm
    cases hua : findUniversalAdmin db with
    | none =>
      simp [createGroupMemberships, hua] at hm
      subst hm
      exact ⟨rfl, rfl, rfl⟩
    | some uaP =>
      by_cases hne : uaP.id = creatorId
      · simp [createGroupMemberships, hua, hne] at hm
        subst hm
        exact ⟨rfl, rfl, rfl⟩
      · simp [createGroupMemberships, hua, hne] at hm
        rcases hm with hm | hm <;> subst hm <;> exact ⟨rfl, rfl, rfl⟩
  · exact find?_update_append db.groups
      (Group.mk newGroupId name description creatorId 1) _ hfresh
  · intro hua
    unfold createGroupMemberships
    rw [hua]
    rfl
  · intro ua hua hne
    simp [createGroupMemberships, hua, hne]

/-- Witness for `createGroup_rows_and_count`: empty group table, one
universal admin distinct from the creator. -/
theorem createGroup_rows_and_count_witness :
    (∀ g ∈ DB.groups (DB.mk [uaProfile] [] [] [] [] []), g.id ≠ "g9")
    ∧ ((createGroup (DB.mk [uaProfile] [] [] [] [] []) noFaults "Physics" none
          "u1" "g9" (fun _ => "m1")).2
        = Except.ok (Group.mk "g9" "Physics" none "u1" 1)
      ∧ (createGroup (DB.mk [uaProfile] [] [] [] [] []) noFaults "Physics"
          none "u1" "g9" (fun _ => "m1")).1.group_members
        = DB.group_members (DB.mk [uaProfile] [] [] [] [] [])
          ++ createGroupMemberships "g9" "u1"
              (findUniversalAdmin (DB.mk [uaProfile] [] [] [] [] []))
              (fun _ => "m1")
      ∧ (∀ m ∈ createGroupMemberships "g9" "u1"
            (findUniversalAdmin (DB.mk [uaProfile] [] [] [] [] []))
            (fun _ => "m1"),
          m.group_id = "g9" ∧ m.is_admin = true
          ∧ m.status = MemberStatus.approved)
      ∧ findGroup
          (createGroup (DB.mk [uaProfile] [] [] [] [] []) noFaults "Physics"
            none "u1" "g9" (fun _ => "m1")).1 "g9"
        = some (Group.mk "g9" "Physics" none "u1"
            (createGroupMemberships "g9" "u1"
              (findUniversalAdmin (DB.mk [uaProfile] [] [] [] [] []))
              (fun _ => "m1")).length)
      ∧ (findUniversalAdmin (DB.mk [uaProfile] [] [] [] [] []) = none →
          (createGroupMemberships "g9" "u1"
            (findUniversalAdmin (DB.mk [uaProfile] [] [] [] [] []))
            (fun _ => "m1")).map GroupMember.user_id = ["u1"])
      ∧ (∀ ua, findUniversalAdmin (DB.mk [uaProfile] [] [] [] [] [])
            = some ua → ua.id ≠ "u1" →
          (createGroupMemberships "g9" "u1"
            (findUniversalAdmin (DB.mk [uaProfile] [] [] [] [] []))
            (fun _ => "m1")).map GroupMember.user_id = ["u1", ua.id])) :=
  ⟨by decide,
    createGroup_rows_and_count (DB.mk [uaProfile] [] [] [] [] []) "Physics"
      none "u1" "g9" (fun _ => "m1") (by decide)⟩

/-- C6 counterexample: step 2 (universal-admin lookup) and step 5
(member_count update) failures do *not* propagate — `createGroup` still
returns the created group, contradicting "any of the five steps' error is
thrown to the caller". -/
theorem createGroup_swallowed_errors :
    (createGroup (DB.mk [] [] [] [] [] [])
        (CreateFaults.mk none (some "admin lookup failed") none none)
        "Physics" none "u1" "g1" (fun _ => "m1")).2
      = Except.ok (Group.mk "g1" "Physics" none "u1" 1)
    ∧ (createGroup (DB.mk [] [] [] [] [] [])
        (CreateFaults.mk none none none (some "count update failed"))
        "Physics" none "u1" "g1" (fun _ => "m1")).2
      = Except.ok (Group.mk "g1" "Physics" none "u1" 1) :=
  ⟨rfl, rfl⟩

/-- C6 (amended): errors of step 1 (group insert) and step 4 (membership
bulk-insert) propagate to the caller unmodified, with no rollback — after a
step-4 failure the created group row is still in the store; errors of step 2
(universal-admin lookup) and step 5 (member_count update) are logged and
swallowed, `createGroup` still returning the created group; step 3 is pure
and cannot fail. -/
theorem createGroup_error_policy (db : DB) (f : CreateFaults) (name : String)
    (description : Option String) (creatorId newGroupId : String)
    (memRowId : String → String) :
    (∀ e, f.groupInsertErr = some e →
      createGroup db f name description creatorId newGroupId memRowId
        = (db, Except.error e))
    ∧ (∀ e, f.groupInsertErr = none → f.memberInsertErr = some e →
      (createGroup db f name description creatorId newGroupId memRowId).2
        = Except.error e
      ∧ Group.mk newGroupId name description creatorId 1
          ∈ (createGroup db f name description creatorId newGroupId
              memRowId).1.groups)
    ∧ (f.groupInsertErr = none → f.memberInsertErr = none →
      (createGroup db f name description creatorId newGroupId memRowId).2
        = Except.ok (Group.mk newGroupId name description creatorId 1)) := by
  obtain ⟨fg, fa, fm, fc⟩ := f
  refine ⟨?_, ?_, ?_⟩
  · intro e he
    have he2 : fg = some e := he
    subst he2
    rfl
  · intro e h1 h2
    have h1b : fg = none := h1
    have h2b : fm = some e := h2
    subst h1b
    subst h2b
    exact ⟨rfl, by simp [createGroup]⟩
  · intro h1 h2
    have h1b : fg = none := h1
    have h2b : fm = none := h2
    subst h1b
    subst h2b
    cases fc <;> rfl

/-- Witness for `createGroup_error_policy`, exercising all three clauses at
concrete fault assignments. -/
theorem createGroup_error_policy_witness :
    ((CreateFaults.mk (some "eG") none none none).groupInsertErr = some "eG"
      ∧ createGroup (DB.mk [] [] [] [] [] [])
          (CreateFaults.mk (some "eG") none none none) "Physics" none "u1"
          "g1" (fun _ => "m1")
        = (DB.mk [] [] [] [] [] [], Except.error "eG"))
    ∧ ((CreateFaults.mk none none (some "eM") none).groupInsertErr = none
      ∧ (CreateFaults.mk none none (some "eM") none).memberInsertErr
          = some "eM"
      ∧ (createGroup (DB.mk [] [] [] [] [] [])
            (CreateFaults.mk none none (some "eM") none) "Physics" none "u1"
            "g1" (fun _ => "m1")).2
          = Except.error "eM"
      ∧ Group.mk "g1" "Physics" none "u1" 1
          ∈ (createGroup (DB.mk [] [] [] [] [] [])
              (CreateFaults.mk none none (some "eM") none) "Physics" none
              "u1" "g1" (fun _ => "m1")).1.groups)
    ∧ ((CreateFaults.mk none (some "eA") none (some "eC")).groupInsertErr
          = none
      ∧ (CreateFaults.mk none (some "eA") none (some "eC")).memberInsertErr
          = none
      ∧ (createGroup (DB.mk [] [] [] [] [] [])
            (CreateFaults.mk none (some "eA") none (some "eC")) "Physics"
            none "u1" "g1" (fun _ => "m1")).2
          = Except.ok (Group.mk "g1" "Physics" none "u1" 1)) :=
  ⟨⟨rfl,
      (createGroup_error_policy (DB.mk [] [] [] [] [] [])
        (CreateFaults.mk (some "eG") none none none) "Physics" none "u1" "g1"
        (fun _ => "m1")).1 "eG" rfl⟩,
    ⟨rfl, rfl,
      (createGroup_error_policy (DB.mk [] [] [] [] [] [])
        (CreateFaults.mk none none (some "eM") none) "Physics" none "u1" "g1"
        (fun _ => "m1")).2.1 "eM" rfl rfl⟩,
    ⟨rfl, rfl,
      (createGroup_error_policy (DB.mk [] [] [] [] [] [])
        (CreateFaults.mk none (some "eA") none (some "eC")) "Physics" none
        "u1" "g1" (fun _ => "m1")).2.2 rfl rfl⟩⟩

/-- Lemma: `recountGroup` only rewrites the groups table. -/
theorem recountGroup_members (db : DB) (gid : String) :
    (recountGroup db gid).group_members = db.group_members := rfl

/-- After `recountGroup`, every group row carrying the recounted id holds the
approved-membership count read from the rows. -/
theorem recountGroup_count {db : DB} {gid : String} {g : Group}
    (hg : g ∈ (recountGroup db gid).groups) (hid : g.id = gid) :
    g.member_count = countApproved db gid := by
  rcases List.mem_map.mp hg with ⟨g0, _, hg0⟩
  by_cases h0 : g0.id == gid
  · rw [if_pos h0] at hg0
    rw [← hg0]
  · rw [if_neg h0] at hg0
    subst hg0
    exact absurd hid (by simpa using h0)

/-- C7: `updateMembershipStatus` on an existing membership row: with
`"approved"` it sets that row's status to approved and persists, onto every
group row with the owning group's id, a `member_count` equal to the count of
approved memberships recomputed from the updated rows; with `"rejected"` it
hard-deletes the row, so — under the upstream invariant of at most one
membership row per (group, user) pair — a subsequent lookup of that pair
finds no row. -/
theorem updateMembershipStatus_spec (db : DB) (mid : String) (m : GroupMember)
    (hm : db.group_members.find? (fun x => x.id == mid) = some m) :
    (∃ db', updateMembershipStatus db mid UpdateStatus.approved
        = Except.ok db'
      ∧ (∀ x ∈ db'.group_members, x.id = mid →
          x.status = MemberStatus.approved)
      ∧ (∀ g ∈ db'.groups, g.id = m.group_id →
          g.member_count
            = (db'.group_members.filter (fun x =>
                x.group_id == m.group_id
                  && x.status == MemberStatus.approved)).length))
    ∧ (∃ db', updateMembershipStatus db mid UpdateStatus.rejected
        = Except.ok db'
      ∧ ((∀ x ∈ db.group_members, x.group_id = m.group_id →
            x.user_id = m.user_id → x.id = mid) →
          findMembership db' m.group_id m.user_id = none)) := by
  constructor
  · refine ⟨recountGroup
        { db with group_members :=
            db.group_members.map (fun x =>
              if x.id == mid then { x with status := MemberStatus.approved }
              else x) }
        m.group_id, ?_, ?_, ?_⟩
    · unfold updateMembershipStatus
      rw [hm]
    · intro x hx hid
      have hx' : x ∈ db.group_members.map (fun y =>
          if y.id == mid then { y with status := MemberStatus.approved }
          else y) := hx
      rcases List.mem_map.mp hx' with ⟨y, _, hxy⟩
      by_cases hyid : y.id == mid
      · rw [if_pos hyid] at hxy
        rw [← hxy]
      · rw [if_neg hyid] at hxy
        subst hxy
        exact absurd hid (by simpa using hyid)
    · intro g hg hid
      have hcnt := recountGroup_count hg hid
      exact hcnt
  · refine ⟨recountGroup
        { db with group_members :=
            db.group_members.filter (fun x => !(x.id == mid)) }
        m.group_id, ?_, ?_⟩
    · unfold updateMembershipStatus
      rw [hm]
    · intro huniq
      unfold findMembership
      apply List.find?_eq_none.mpr
      intro x hx hpred
      have hx' : x ∈ db.group_members.filter (fun y => !(y.id == mid)) := hx
      rcases List.mem_filter.mp hx' with ⟨hxmem, hxid⟩
      rw [Bool.and_eq_true] at hpred
      have hxeq : x.id = mid :=
        huniq x hxmem (by simpa using hpred.1) (by simpa using hpred.2)
      exact absurd hxeq (by simpa using hxid)

/-- Witness for `updateMembershipStatus_spec`: one pending membership row in
a one-group store. -/
theorem updateMembershipStatus_spec_witness :
    List.find? (fun x => x.id == "m1")
        (DB.group_members
          (DB.mk [] [gPhysics]
            [GroupMember.mk "m1" "g1" "u2" false MemberStatus.pending]
            [] [] []))
      = some (GroupMember.mk "m1" "g1" "u2" false MemberStatus.pending)
    ∧ ((∃ db', updateMembershipStatus
          (DB.mk [] [gPhysics]
            [GroupMember.mk "m1" "g1" "u2" false MemberStatus.pending]
            [] [] [])
          "m1" UpdateStatus.approved = Except.ok db'
        ∧ (∀ x ∈ db'.group_members, x.id = "m1" →
            x.status = MemberStatus.approved)
        ∧ (∀ g ∈ db'.groups, g.id = "g1" →
            g.member_count
              = (db'.group_members.filter (fun x =>
                  x.group_id == "g1"
                    && x.status == MemberStatus.approved)).length))
      ∧ (∃ db', updateMembershipStatus
          (DB.mk [] [gPhysics]
            [GroupMember.mk "m1" "g1" "u2" false MemberStatus.pending]
            [] [] [])
          "m1" UpdateStatus.rejected = Except.ok db'
        ∧ ((∀ x ∈ DB.group_members
              (DB.mk [] [gPhysics]
                [GroupMember.mk "m1" "g1" "u2" false MemberStatus.pending]
                [] [] []),
              x.group_id = "g1" → x.user_id = "u2" → x.id = "m1") →
            findMembership db' "g1" "u2" = none))) :=
  ⟨by decide,
    updateMembershipStatus_spec
      (DB.mk [] [gPhysics]
        [GroupMember.mk "m1" "g1" "u2" false MemberStatus.pending] [] [] [])
      "m1" (GroupMember.mk "m1" "g1" "u2" false MemberStatus.pending)
      (by decide)⟩

theorem contains_iff_mem {l : List String} {a : String} :
    l.contains a = true ↔ a ∈ l := List.elem_iff

/-- The `notFound` outcome list, in every branch: the inputs whose lowercased
form matches no stored username. -/
theorem addMembers_notFound (db : DB) (groupId : String)
    (usernames : List String) (memRowId : String → String) :
    ((addMembersToGroup db groupId usernames memRowId).2).notFound
      = usernames.filter (fun u =>
          !(((matchedProfiles db usernames).map
              (fun p => p.username)).contains (strToLower u))) := by
  unfold addMembersToGroup
  dsimp only
  split
  · rfl
  · split <;> rfl

/-- The `added` outcome list characterized: a matched profile without an
existing membership row, reported under its stored username. -/
theorem addMembers_added_iff (db : DB) (groupId : String)
    (usernames : List String) (memRowId : String → String) (u : String) :
    (u ∈ ((addMembersToGroup db groupId usernames memRowId).2).added)
      ↔ ∃ p ∈ matchedProfiles db usernames,
          (newMemberIds db groupId usernames).contains p.id = true
          ∧ p.username = u := by
  unfold addMembersToGroup
  dsimp only
  split
  · rename_i hempty
    have hnil : matchedProfiles db usernames = [] :=
      List.map_eq_nil_iff.mp (List.isEmpty_iff.mp hempty)
    simp [hnil]
  · split
    · rename_i hempty
      have hnil : newMemberIds db groupId usernames = [] :=
        List.isEmpty_iff.mp hempty
      simp [hnil]
    · simp only [List.mem_map, List.mem_filter]
      constructor
      · rintro ⟨p, ⟨hp, hnew⟩, hu⟩
        exact ⟨p, hp, hnew, hu⟩
      · rintro ⟨p, hp, hnew, hu⟩
        exact ⟨p, ⟨hp, hnew⟩, hu⟩

/-- The `alreadyMembers` outcome list characterized: a matched profile with
an existing membership row, reported under its stored username. -/
theorem addMembers_already_iff (db : DB) (groupId : String)
    (usernames : List String) (memRowId : String → String) (u : String) :
    (u ∈ ((addMembersToGroup db groupId usernames memRowId).2).alreadyMembers)
      ↔ ∃ p ∈ matchedProfiles db usernames,
          (existingMemberIds db groupId usernames).contains p.id = true
          ∧ p.username = u := by
  unfold addMembersToGroup
  dsimp only
  split
  · rename_i hempty
    have hnil : matchedProfiles db usernames = [] :=
      List.map_eq_nil_iff.mp (List.isEmpty_iff.mp hempty)
    simp [hnil]
  · split
    · simp only [List.mem_map, List.mem_filter]
      constructor
      · rintro ⟨p, ⟨hp, hex⟩, hu⟩
        exact ⟨p, hp, hex, hu⟩
      · rintro ⟨p, hp, hex, hu⟩
        exact ⟨p, ⟨hp, hex⟩, hu⟩
    · simp only [List.mem_map, List.mem_filter]
      constructor
      · rintro ⟨p, ⟨hp, hex⟩, hu⟩
        exact ⟨p, hp, hex, hu⟩
      · rintro ⟨p, hp, hex, hu⟩
        exact ⟨p, ⟨hp, hex⟩, hu⟩

/-- C8: when the inputs are already lowercase (the app's username invariant)
and stored usernames are unique, every input username lands in exactly one of
the three outcome lists of `addMembersToGroup`; on the claim's example —
alice and bob have profiles, bob already a member, ghost unmatched — the
result is exactly added = [alice], alreadyMembers = [bob],
notFound = [ghost]. -/
theorem addMembersToGroup_partition :
    (∀ (db : DB) (groupId : String) (usernames : List String)
        (memRowId : String → String),
      (∀ u ∈ usernames, strToLower u = u) →
      (∀ p ∈ db.profiles, ∀ q ∈ db.profiles,
        p.username = q.username → p.id = q.id) →
      ∀ u ∈ usernames,
        ((u ∈ ((addMembersToGroup db groupId usernames memRowId).2).added
          ∧ u ∉ ((addMembersToGroup db groupId usernames
              memRowId).2).alreadyMembers
          ∧ u ∉ ((addMembersToGroup db groupId usernames memRowId).2).notFound)
        ∨ (u ∉ ((addMembersToGroup db groupId usernames memRowId).2).added
          ∧ u ∈ ((addMembersToGroup db groupId usernames
              memRowId).2).alreadyMembers
          ∧ u ∉ ((addMembersToGroup db groupId usernames memRowId).2).notFound)
        ∨ (u ∉ ((addMembersToGroup db groupId usernames memRowId).2).added
          ∧ u ∉ ((addMembersToGroup db groupId usernames
              memRowId).2).alreadyMembers
          ∧ u ∈ ((addMembersToGroup db groupId usernames
              memRowId).2).notFound)))
    ∧ (addMembersToGroup addDB "g1" ["alice", "ghost", "bob"]
        (fun u => u)).2
      = AddMembersResult.mk ["alice"] ["ghost"] ["bob"] := by
  constructor
  · intro db groupId usernames memRowId hlow huniq u hu
    by_cases hfound :
        u ∈ (matchedProfiles db usernames).map (fun p => p.username)
    · rcases List.mem_map.mp hfound with ⟨p, hp, hpu⟩
      have hpdb : p ∈ db.profiles := (List.mem_filter.mp hp).1
      have hnotnf : u ∉ ((addMembersToGroup db groupId usernames
          memRowId).2).notFound := by
        rw [addMembers_notFound]
        intro hmem
        have h2 := (List.mem_filter.mp hmem).2
        rw [hlow u hu] at h2
        rw [contains_iff_mem.mpr hfound] at h2
        exact absurd h2 (by decide)
      by_cases hex :
          (existingMemberIds db groupId usernames).contains p.id = true
      · refine Or.inr (Or.inl ⟨?_, ?_, hnotnf⟩)
        · rw [addMembers_added_iff]
          rintro ⟨q, hq, hqnew, hqu⟩
          have hqdb : q ∈ db.profiles := (List.mem_filter.mp hq).1
          have hqp : q.id = p.id := huniq q hqdb p hpdb (hqu.trans hpu.symm)
          have hqnew2 := (List.mem_filter.mp
            (contains_iff_mem.mp hqnew)).2
          rw [hqp, hex] at hqnew2
          exact absurd hqnew2 (by decide)
        · rw [addMembers_already_iff]
          exact ⟨p, hp, hex, hpu⟩
      · have hexf : (existingMemberIds db groupId usernames).contains p.id
            = false := by
          simpa using hex
        have hnew : (newMemberIds db groupId usernames).contains p.id
            = true := by
          apply contains_iff_mem.mpr
          apply List.mem_filter.mpr
          refine ⟨List.mem_map.mpr ⟨p, hp, rfl⟩, ?_⟩
          rw [hexf]
          decide
        refine Or.inl ⟨?_, ?_, hnotnf⟩
        · rw [addMembers_added_iff]
          exact ⟨p, hp, hnew, hpu⟩
        · rw [addMembers_already_iff]
          rintro ⟨q, hq, hqex, hqu⟩
          have hqdb : q ∈ db.profiles := (List.mem_filter.mp hq).1
          have hqp : q.id = p.id := huniq q hqdb p hpdb (hqu.trans hpu.symm)
          rw [hqp, hexf] at hqex
          exact absurd hqex (by decide)
    · refine Or.inr (Or.inr ⟨?_, ?_, ?_⟩)
      · rw [addMembers_added_iff]
        rintro ⟨q, hq, _, hqu⟩
        exact hfound (List.mem_map.mpr ⟨q, hq, hqu⟩)
      · rw [addMembers_already_iff]
        rintro ⟨q, hq, _, hqu⟩
        exact hfound (List.mem_map.mpr ⟨q, hq, hqu⟩)
      · rw [addMembers_notFound]
        apply List.mem_filter.mpr
        refine ⟨hu, ?_⟩
        rw [hlow u hu]
        have : ((matchedProfiles db usernames).map
            (fun p => p.username)).contains u = false := by
          rcases h : ((matchedProfiles db usernames).map
              (fun p => p.username)).contains u with _ | _
          · exact h
          · exact absurd (contains_iff_mem.mp h) hfound
        rw [this]
        decide
  · decide

/-- Witness for `addMembersToGroup_partition` at the example store and input
"alice". -/
theorem addMembersToGroup_partition_witness :
    (∀ u ∈ ["alice", "ghost", "bob"], strToLower u = u)
    ∧ (∀ p ∈ addDB.profiles, ∀ q ∈ addDB.profiles,
        p.username = q.username → p.id = q.id)
    ∧ "alice" ∈ ["alice", "ghost", "bob"]
    ∧ (("alice" ∈ ((addMembersToGroup addDB "g1" ["alice", "ghost", "bob"]
            (fun u => u)).2).added
        ∧ "alice" ∉ ((addMembersToGroup addDB "g1" ["alice", "ghost", "bob"]
            (fun u => u)).2).alreadyMembers
        ∧ "alice" ∉ ((addMembersToGroup addDB "g1" ["alice", "ghost", "bob"]
            (fun u => u)).2).notFound)
      ∨ ("alice" ∉ ((addMembersToGroup addDB "g1" ["alice", "ghost", "bob"]
            (fun u => u)).2).added
        ∧ "alice" ∈ ((addMembersToGroup addDB "g1" ["alice", "ghost", "bob"]
            (fun u => u)).2).alreadyMembers
        ∧ "alice" ∉ ((addMembersToGroup addDB "g1" ["alice", "ghost", "bob"]
            (fun u => u)).2).notFound)
      ∨ ("alice" ∉ ((addMembersToGroup addDB "g1" ["alice", "ghost", "bob"]
            (fun u => u)).2).added
        ∧ "alice" ∉ ((addMembersToGroup addDB "g1" ["alice", "ghost", "bob"]
            (fun u => u)).2).alreadyMembers
        ∧ "alice" ∈ ((addMembersToGroup addDB "g1" ["alice", "ghost", "bob"]
            (fun u => u)).2).notFound)) :=
  ⟨by decide, by decide, by decide,
    addMembersToGroup_partition.1 addDB "g1" ["alice", "ghost", "bob"]
      (fun u => u) (by decide) (by decide) "alice" (by decide)⟩

end UniNote
